import Mathlib

/-!
Verification development for a small two-pipeline dashboard application
(`app.py`): a Naver DataLab trend pipeline (keyword-group parsing and a
single batched fetch) and a YouTube pipeline (cursor pagination over a
search endpoint, chunked detail lookups, ratio computation and filtering).

External services (HTTP transport, the UI framework, JSON decoding) are
modelled as explicit function arguments or trace components; network
interactions appear as explicit call traces so that claims about "no
network call" are statements about the trace.

Python strings are modelled as Lean `String`s, with the handful of string
primitives the code uses (`strip`, `split`, `splitlines`, `in`, `replace`,
`int(...)`) translated to structurally recursive functions over the
underlying character list so that every definition evaluates on concrete
inputs. Python float arithmetic is idealised as exact rational arithmetic.
-/

namespace App

/- ───────────────────────── Python string primitives ───────────────────────── -/

/-- Python `str.strip()`: remove leading and trailing whitespace
(ASCII whitespace; the code never feeds exotic Unicode spaces). -/
def pyStrip (s : String) : String :=
  String.mk (((s.data.dropWhile Char.isWhitespace).reverse.dropWhile
    Char.isWhitespace).reverse)

/-- Python `str.split(c)` for a one-character separator, no maxsplit. -/
def pySplitAll (c : Char) (s : String) : List String :=
  (s.data.splitOn c).map String.mk

/-- Python `str.split(c, 1)` for a one-character separator contained in the
string: the part before the first occurrence and the part after it. -/
def pySplitFirst (c : Char) (s : String) : String × String :=
  (String.mk (s.data.takeWhile (fun x => x ≠ c)),
   String.mk ((s.data.dropWhile (fun x => x ≠ c)).drop 1))

/-- Python `c in s` for a one-character needle. -/
def hasChar (c : Char) (s : String) : Bool :=
  s.data.contains c

/-- Python `str.splitlines()` restricted to `\n` separators (the only line
terminator that occurs here); a trailing newline yields a trailing empty
entry, which the parser skips anyway. -/
def pySplitlines (s : String) : List String :=
  (s.data.splitOn '\n').map String.mk

/-- Python `s.replace("Z", "+00:00")`. -/
def pyReplaceZ (s : String) : String :=
  String.mk (s.data.foldr
    (fun c acc => if c = 'Z' then '+' :: '0' :: '0' :: ':' :: '0' :: '0' :: acc
      else c :: acc) [])

/-- Decimal digit-string value, `none` when empty or non-numeric. -/
def decDigits : List Char → Option Nat
  | [] => none
  | cs =>
    if cs.all Char.isDigit then
      some (cs.foldl (fun acc c => acc * 10 + (c.toNat - 48)) 0)
    else none

/-- Python `int(s)` on a string: strip whitespace, allow an optional sign,
then a non-empty digit run; `none` models the `ValueError` Python raises
otherwise. -/
def pyInt (s : String) : Option Int :=
  match (pyStrip s).data with
  | '-' :: rest => (decDigits rest).map (fun n => -(n : Int))
  | '+' :: rest => (decDigits rest).map (fun n => (n : Int))
  | cs => (decDigits cs).map (fun n => (n : Int))

/- ───────────────────────── Keyword-group parsing ───────────────────────── -/

/-- A keyword group as built by `parse_groups`:
`{"groupName": name, "keywords": [...]}`. -/
structure KeywordGroup where
  groupName : String
  keywords : List String
deriving Repr, DecidableEq

/-- Body of the `parse_groups` loop for one line: strip the line, skip it
when empty or colon-free, split at the first colon (`line.split(":", 1)`),
strip the name, split the remainder on commas stripping entries and
dropping empties, and append a group only when both name and keyword list
are non-empty (`if name and keywords`). -/
def parseLineStep (groups : List KeywordGroup) (rawLine : String) : List KeywordGroup :=
  let line := pyStrip rawLine
  if line = "" ∨ ¬ hasChar ':' line then groups
  else
    let name := pyStrip (pySplitFirst ':' line).1
    let keywords := ((pySplitAll ',' (pySplitFirst ':' line).2).map pyStrip).filter
      (fun k => k ≠ "")
    if name ≠ "" ∧ keywords ≠ [] then groups ++ [⟨name, keywords⟩] else groups

/-- `parse_groups(text)`: fold `parseLineStep` over the lines of the text,
starting from the empty accumulator (`text or ""` is the identity on the
string model). -/
def parse_groups (text : String) : List KeywordGroup :=
  (pySplitlines text).foldl parseLineStep []

/-- The group a single line contributes, if any: used to characterise
`parse_groups` as a `filterMap` over its lines. -/
def lineGroup (rawLine : String) : Option KeywordGroup :=
  let line := pyStrip rawLine
  if line = "" ∨ ¬ hasChar ':' line then none
  else
    let name := pyStrip (pySplitFirst ':' line).1
    let keywords := ((pySplitAll ',' (pySplitFirst ':' line).2).map pyStrip).filter
      (fun k => k ≠ "")
    if name ≠ "" ∧ keywords ≠ [] then some ⟨name, keywords⟩ else none

/-- The group a line should yield according to the (amended) specification:
for a stripped line containing a colon, the name is the trimmed part left
of the first colon and the keywords are the comma-separated remainder with
entries trimmed and empties dropped; a group is emitted exactly when the
colon is present, the trimmed name is non-empty and the keyword list is
non-empty. -/
def claimLineGroup (rawLine : String) : Option KeywordGroup :=
  let line := pyStrip rawLine
  let name := pyStrip (pySplitFirst ':' line).1
  let keywords := ((pySplitAll ',' (pySplitFirst ':' line).2).map pyStrip).filter
    (fun k => k ≠ "")
  if hasChar ':' line ∧ name ≠ "" ∧ keywords ≠ [] then some ⟨name, keywords⟩ else none

/- ───────────────────────── YouTube: pagination ───────────────────────── -/

/-- One item of a search response. The Python code reads
`it.get("id", {}).get("videoId")`; a missing `id` object and a missing
`videoId` key both yield no identifier, so the item is modelled by the
optional `videoId` alone (`none` covers both absent shapes). -/
structure SearchItem where
  videoId : Option String
deriving Repr, DecidableEq

/-- One page returned by `youtube.search().list`: its `items` array and the
optional `nextPageToken`. -/
structure Page where
  items : List SearchItem
  nextPageToken : Option String
deriving Repr, DecidableEq

/-- Python truthiness of the optional token string: `None` and `""` are
falsy, any other string is truthy (`if page_token:` / `if not page_token:`). -/
def tokenTruthy : Option String → Bool
  | none => false
  | some s => s ≠ ""

/-- The identifiers one page contributes:
`[it["id"]["videoId"] for it in sr.get("items", []) if it.get("id", {}).get("videoId")]`
— keep an item exactly when its `videoId` is present and non-empty. -/
def pageIds (p : Page) : List String :=
  p.items.filterMap (fun it =>
    match it.videoId with
    | none => none
    | some v => if v = "" then none else some v)

/-- The `while True` pagination loop of `fetch_all_youtube`, modelled over
the trace of successive provider responses: consume the first response,
collect its identifiers, and continue with the remaining responses exactly
when the response carries a truthy `nextPageToken` (which the code passes
back as the `pageToken` parameter of the next request). -/
def fetchAllIds : List Page → List String
  | [] => []
  | p :: rest =>
    pageIds p ++ (if tokenTruthy p.nextPageToken then fetchAllIds rest else [])

/-- A response trace is well formed when it is the trace an exhaustive
pagination actually produces: non-empty, every response except the last
carries a truthy continuation token, and the last does not. -/
def wfPages : List Page → Bool
  | [] => false
  | [p] => ! tokenTruthy p.nextPageToken
  | p :: q :: rest => tokenTruthy p.nextPageToken && wfPages (q :: rest)

/- ───────────────────────── YouTube: detail lookups ───────────────────────── -/

/-- The `snippet` object of a detail item (`it.get("snippet", {})`): an
absent snippet is the all-`none` record. -/
structure Snippet where
  title : Option String
  publishedAt : Option String
deriving Repr, DecidableEq

/-- The `statistics` object of a detail item (`it.get("statistics", {})`),
holding the decimal-string counts the API returns; an absent statistics
object is the all-`none` record. -/
structure Statistics where
  viewCount : Option String
  likeCount : Option String
  commentCount : Option String
deriving Repr, DecidableEq

/-- One item of a `videos().list` detail response. -/
structure DetailItem where
  id : Option String
  snippet : Snippet
  statistics : Statistics
deriving Repr, DecidableEq

/-- `int(stt.get("viewCount", 0)) if stt.get("viewCount") else 0`: the
truthiness guard sends an absent or empty field to `0`; otherwise the
string is converted with `int`. -/
def viewCountOf (stt : Statistics) : Option Int :=
  match stt.viewCount with
  | none => some 0
  | some s => if s = "" then some 0 else pyInt s

/-- `int(stt.get("likeCount", 0)) if "likeCount" in stt else 0`: the
membership guard sends an absent field to `0`; any present string is
converted with `int`. -/
def likeCountOf (stt : Statistics) : Option Int :=
  match stt.likeCount with
  | none => some 0
  | some s => pyInt s

/-- `int(stt.get("commentCount", 0)) if "commentCount" in stt else 0`. -/
def commentCountOf (stt : Statistics) : Option Int :=
  match stt.commentCount with
  | none => some 0
  | some s => pyInt s

/-- A collected video record (one element of the `videos` list built by
`fetch_all_youtube`). -/
structure Video where
  title : String
  published_at : String
  url : String
  view_count : Int
  like_count : Int
  comment_count : Int
deriving Repr, DecidableEq

/-- Build one record from a detail item, following the dict literal in
`fetch_all_youtube`; `none` models an `int()` conversion failure aborting
the whole call. `sn.get(k, "") or ""` collapses to the default `""` for an
absent key. -/
def mkVideo (it : DetailItem) : Option Video :=
  match viewCountOf it.statistics, likeCountOf it.statistics,
      commentCountOf it.statistics with
  | some v, some l, some c =>
    some { title := it.snippet.title.getD ""
           published_at := it.snippet.publishedAt.getD ""
           url := "https://www.youtube.com/watch?v=" ++ it.id.getD ""
           view_count := v
           like_count := l
           comment_count := c }
  | _, _, _ => none

/-- The chunking of `_videos_list_chunked`:
`for i in range(0, len(ids), 50)` takes the slices `ids[i:i+50]`. -/
def chunks50 (ids : List String) : List (List String) :=
  if h : ids = [] then [] else ids.take 50 :: chunks50 (ids.drop 50)
termination_by ids.length
decreasing_by
  simp only [List.length_drop]
  have : 0 < ids.length := List.length_pos.mpr h
  omega

/-- `_videos_list_chunked(youtube, ids)`: one detail call per 50-identifier
chunk, concatenating the returned `items`; the detail endpoint is the
function argument `detail`. -/
def videos_list_chunked (detail : List String → List DetailItem)
    (ids : List String) : List DetailItem :=
  ((chunks50 ids).map detail).flatten

/-- `fetch_all_youtube`, given the trace of search responses and the detail
endpoint: paginate to collect all identifiers, short-circuit to `[]` when
none were found, otherwise look the identifiers up in chunks and build the
records. The second component is the trace of detail calls issued (the
argument lists passed to the detail endpoint). -/
def fetch_all_youtube (pages : List Page)
    (detail : List String → List DetailItem) :
    Option (List Video) × List (List String) :=
  let all_ids := fetchAllIds pages
  if all_ids.isEmpty then (some [], [])
  else ((videos_list_chunked detail all_ids).mapM mkVideo, chunks50 all_ids)

/- ───────────────────────── YouTube: ratios and table ───────────────────────── -/

/-- `round(x, 6)`: the value scaled by `10^6`, rounded to the nearest
integer, and scaled back. Python float arithmetic is idealised as exact
rational arithmetic with round-to-nearest. -/
def round6 (x : ℚ) : ℚ :=
  ((round (x * 1000000) : ℤ) : ℚ) / 1000000

/-- `calc_ratios(row)`: clamp the three counts to be non-negative
(`max(int(...), 0)`), return both ratios rounded to six decimals when the
clamped view count is truthy (non-zero) and `0.0` otherwise. The
`datetime.fromisoformat` parse is kept abstract: the third component
records the normalised ISO string handed to it (`None`, i.e. `none`, for an
empty `published_at`); parse failures lie outside every claim. -/
def calc_ratios (row : Video) : ℚ × ℚ × Option String :=
  let view : Int := max row.view_count 0
  let like : Int := max row.like_count 0
  let comt : Int := max row.comment_count 0
  let like_ratio : ℚ := if view ≠ 0 then round6 ((like : ℚ) / (view : ℚ)) else 0
  let comment_ratio : ℚ := if view ≠ 0 then round6 ((comt : ℚ) / (view : ℚ)) else 0
  let pub_dt : Option String :=
    if row.published_at ≠ "" then some (pyReplaceZ row.published_at) else none
  (like_ratio, comment_ratio, pub_dt)

/-- One row of the displayed table. -/
structure OutRow where
  title : String
  url : String
  published_at : Option String
  view_count : Int
  like_ratio : ℚ
  comment_ratio : ℚ
deriving Repr, DecidableEq

/-- The row `yt_to_dataframe` appends for one video record. -/
def outRowOf (v : Video) : OutRow :=
  let r := calc_ratios v
  { title := v.title
    url := v.url
    published_at := r.2.2
    view_count := v.view_count
    like_ratio := r.1
    comment_ratio := r.2.1 }

/-- Body of the `yt_to_dataframe` loop: skip a record with
`view_count < 100`, otherwise append its row. -/
def ytRowStep (rows : List OutRow) (v : Video) : List OutRow :=
  if v.view_count < 100 then rows else rows ++ [outRowOf v]

/-- `yt_to_dataframe(videos)`: an empty input short-circuits to the empty
table (the Python version returns an empty frame with the column headers);
otherwise fold the append-loop over the records. -/
def yt_to_dataframe (videos : List Video) : List OutRow :=
  if videos.isEmpty then [] else videos.foldl ytRowStep []

/- ───────────────────────── Naver DataLab fetch ───────────────────────── -/

/-- One `{period, ratio}` point of a DataLab result series. -/
structure DlPoint where
  period : String
  ratio : ℚ
deriving Repr, DecidableEq

/-- One element of the `results` array of a DataLab response. -/
structure DlResult where
  title : Option String
  data : List DlPoint
deriving Repr, DecidableEq

/-- One row of the trend table: `(period, ratio, title)`. The
`pd.to_datetime` normalisation of `period` is kept abstract (the string is
carried through). -/
structure TrendRow where
  period : String
  ratio : ℚ
  title : Option String
deriving Repr, DecidableEq

/-- The JSON payload of the DataLab request. Dates are modelled by their
ordinal number (`datetime.date` is totally ordered); the `strftime`
formatting is out of scope. -/
structure DatalabRequest where
  startDate : Int
  endDate : Int
  timeUnit : String
  keywordGroups : List KeywordGroup
deriving Repr, DecidableEq

/-- `fetch_datalab`, with the HTTP POST modelled by the function argument
`api` mapping the request payload to the decoded `results` array. Returns
the flattened rows together with the number of network calls performed: an
empty group list short-circuits to an empty frame with no call, otherwise
exactly one POST is issued, every result with a non-empty `data` list
contributes one frame of rows tagged with its title, and the frames are
concatenated (no frames at all yields the empty table). -/
def fetch_datalab (start_date end_date : Int) (time_unit : String)
    (keyword_groups : List KeywordGroup)
    (api : DatalabRequest → List DlResult) : List TrendRow × Nat :=
  if keyword_groups.isEmpty then ([], 0)
  else
    let results := api ⟨start_date, end_date, time_unit, keyword_groups⟩
    let frames := results.filterMap (fun res =>
      if res.data.isEmpty then none
      else some (res.data.map (fun d => TrendRow.mk d.period d.ratio res.title)))
    (frames.flatten, 1)

/-- The outcome `render_naver_datalab` shows for a submitted query. -/
inductive NdlOutcome where
  | missingCreds
  | dateError
  | noGroups
  | emptyData
  | fetched (rows : List TrendRow)
deriving Repr, DecidableEq

/-- What the DataLab submission actually executed: whether `parse_groups`
was invoked and how many network calls `fetch_datalab` performed. -/
structure NdlTrace where
  parseCalled : Bool
  apiCalls : Nat
deriving Repr, DecidableEq

/-- The `if run_ndl:` branch of `render_naver_datalab`: report missing
credentials first, then reject `start_date > end_date`, then parse the
group text and reject an empty parse, and only then fetch (warning on an
empty frame). -/
def render_naver_datalab (creds : Bool) (start_date end_date : Int)
    (time_unit : String) (groups_raw : String)
    (api : DatalabRequest → List DlResult) : NdlOutcome × NdlTrace :=
  if creds = false then (.missingCreds, ⟨false, 0⟩)
  else if end_date < start_date then (.dateError, ⟨false, 0⟩)
  else
    let groups := parse_groups groups_raw
    if groups.isEmpty then (.noGroups, ⟨true, 0⟩)
    else
      let r := fetch_datalab start_date end_date time_unit groups api
      (if r.1.isEmpty then .emptyData else .fetched r.1, ⟨true, r.2⟩)

/- ───────────────────────── Result cache (time-to-live) ───────────────────────── -/

/-- Look a key up in the memo table (newest entry first). -/
def cacheLookup {K V : Type} [DecidableEq K] (cache : List (K × Nat × V))
    (k : K) : Option (Nat × V) :=
  match cache with
  | [] => none
  | (k2, t, v) :: rest => if k2 = k then some (t, v) else cacheLookup rest k

/-- Modelled from the spec: the `st.cache_data(ttl=600)` decorator wrapped
around `fetch_datalab` and `fetch_all_youtube` is framework code, so the
time-to-live memo is modelled from the specification's description — a
memo keyed by the call parameters whose entry is valid for `ttl` seconds
after it was stored. `cachedCall ttl f cache now k` returns the result,
the updated memo, and whether the underlying fetch (a network call) ran. -/
def cachedCall {K V : Type} [DecidableEq K] (ttl : Nat) (f : K → V)
    (cache : List (K × Nat × V)) (now : Nat) (k : K) :
    V × List (K × Nat × V) × Bool :=
  match cacheLookup cache k with
  | some (t, v) =>
    if now < t + ttl then (v, cache, false)
    else ((f k), (k, now, f k) :: cache, true)
  | none => ((f k), (k, now, f k) :: cache, true)

/-- A concrete instantiation of the DataLab fetcher, keyed by the keyword
groups with the remaining request parameters fixed: used to exercise the
time-to-live memo on one of the program's cached fetchers. -/
def dlFetchOnGroups (gs : List KeywordGroup) : List TrendRow × Nat :=
  fetch_datalab 0 10 "date" gs (fun _ => [])

/- ═════════════════════════ Helper lemmas ═════════════════════════ -/

theorem parseLineStep_eq_lineGroup (groups : List KeywordGroup) (rawLine : String) :
    parseLineStep groups rawLine = groups ++ (lineGroup rawLine).toList := by
  unfold parseLineStep lineGroup
  dsimp only
  split
  · simp
  · split
    · simp
    · simp

theorem foldl_parseLineStep (lines : List String) (acc : List KeywordGroup) :
    lines.foldl parseLineStep acc = acc ++ lines.filterMap lineGroup := by
  induction lines generalizing acc with
  | nil => simp
  | cons l ls ih =>
    simp only [List.foldl_cons, List.filterMap_cons]
    rw [ih, parseLineStep_eq_lineGroup]
    cases h : lineGroup l <;> simp [h]

/-- `parse_groups` is the in-order `filterMap` of `lineGroup` over the lines. -/
theorem parse_groups_eq_filterMap (text : String) :
    parse_groups text = (pySplitlines text).filterMap lineGroup := by
  unfold parse_groups
  rw [foldl_parseLineStep]
  simp

theorem lineGroup_eq_claimLineGroup (rawLine : String) :
    lineGroup rawLine = claimLineGroup rawLine := by
  unfold lineGroup claimLineGroup
  dsimp only
  by_cases hempty : pyStrip rawLine = ""
  · have hnc : hasChar ':' "" = false := by decide
    simp [hempty, hnc]
  · by_cases hc : hasChar ':' (pyStrip rawLine)
    · simp [hempty, hc]
    · simp [hempty, hc]

theorem fetchAllIds_of_wf (pages : List Page) (h : wfPages pages = true) :
    fetchAllIds pages = (pages.map pageIds).flatten := by
  induction pages with
  | nil => simp [wfPages] at h
  | cons p rest ih =>
    cases rest with
    | nil =>
      simp only [wfPages, Bool.not_eq_true'] at h
      simp [fetchAllIds, h]
    | cons q rest2 =>
      simp only [wfPages, Bool.and_eq_true] at h
      have hstep : fetchAllIds (p :: q :: rest2) = pageIds p ++ fetchAllIds (q :: rest2) := by
        simp [fetchAllIds, h.1]
      rw [hstep, ih h.2]
      simp

theorem chunks50_flatten (ids : List String) : (chunks50 ids).flatten = ids := by
  induction ids using chunks50.induct with
  | case1 => simp [chunks50]
  | case2 ids hne ih =>
    rw [chunks50]
    simp only [hne, dite_false, List.flatten_cons, ih]
    exact List.take_append_drop 50 ids

theorem chunks50_length (ids : List String) :
    (chunks50 ids).length = (ids.length + 49) / 50 := by
  induction ids using chunks50.induct with
  | case1 => simp [chunks50]
  | case2 ids hne ih =>
    rw [chunks50]
    simp only [hne, dite_false, List.length_cons, ih, List.length_drop]
    have : 0 < ids.length := List.length_pos.mpr hne
    omega

theorem chunks50_mem_le (ids : List String) (c : List String)
    (hc : c ∈ chunks50 ids) : c.length ≤ 50 := by
  induction ids using chunks50.induct with
  | case1 => simp [chunks50] at hc
  | case2 ids hne ih =>
    rw [chunks50] at hc
    simp only [hne, dite_false, List.mem_cons] at hc
    rcases hc with h | h
    · subst h; simpa using List.length_take_le 50 ids
    · exact ih h

theorem foldl_ytRowStep (videos : List Video) (acc : List OutRow) :
    videos.foldl ytRowStep acc =
      acc ++ (videos.filter (fun v => ! decide (v.view_count < 100))).map outRowOf := by
  induction videos generalizing acc with
  | nil => simp
  | cons v vs ih =>
    simp only [List.foldl_cons, List.filter_cons]
    by_cases h : v.view_count < 100
    · rw [show ytRowStep acc v = acc from by simp [ytRowStep, h]]
      simp [h, ih]
    · rw [show ytRowStep acc v = acc ++ [outRowOf v] from by simp [ytRowStep, h]]
      rw [ih]
      simp [h]

theorem yt_to_dataframe_eq_filterMap (videos : List Video) :
    yt_to_dataframe videos =
      (videos.filter (fun v => ! decide (v.view_count < 100))).map outRowOf := by
  unfold yt_to_dataframe
  by_cases h : videos.isEmpty
  · rw [List.isEmpty_iff] at h
    simp [h]
  · simp only [h, if_false]
    rw [foldl_ytRowStep]
    simp

theorem outRowOf_view_count (v : Video) : (outRowOf v).view_count = v.view_count := rfl

/- ═════════════════════════ Claim theorems ═════════════════════════ -/

/-- C1: for every well-formed sequence of search-API pages (each page but
the last carrying a truthy continuation token, the last carrying none),
the pagination loop of `fetch_all_youtube` collects exactly the
concatenation, in page order, of the identifiers of every page, and the
total identifier count is the sum of the per-page counts. -/
theorem claim_C1_pagination (pages : List Page) (h : wfPages pages = true) :
    fetchAllIds pages = (pages.map pageIds).flatten ∧
    (fetchAllIds pages).length = ((pages.map (fun p => (pageIds p).length)).sum) := by
  refine ⟨fetchAllIds_of_wf pages h, ?_⟩
  rw [fetchAllIds_of_wf pages h, List.length_flatten, List.map_map]
  rfl

/-- Witness for C1 at a concrete two-page trace. -/
theorem claim_C1_pagination_witness :
    wfPages [⟨[⟨some "a"⟩, ⟨some "b"⟩], some "T"⟩, ⟨[⟨some "c"⟩], none⟩] = true ∧
    (fetchAllIds [⟨[⟨some "a"⟩, ⟨some "b"⟩], some "T"⟩, ⟨[⟨some "c"⟩], none⟩] =
      (([⟨[⟨some "a"⟩, ⟨some "b"⟩], some "T"⟩, ⟨[⟨some "c"⟩], none⟩] : List Page).map
        pageIds).flatten ∧
     (fetchAllIds [⟨[⟨some "a"⟩, ⟨some "b"⟩], some "T"⟩, ⟨[⟨some "c"⟩], none⟩]).length =
      ((([⟨[⟨some "a"⟩, ⟨some "b"⟩], some "T"⟩, ⟨[⟨some "c"⟩], none⟩] : List Page).map
        (fun p => (pageIds p).length)).sum)) :=
  ⟨by decide, claim_C1_pagination _ (by decide)⟩

/-- C2: `calc_ratios` clamps the three counts to be non-negative and
returns both ratios as `0` when the clamped view count is `0`, and as the
count divided by the view count rounded to six decimal places otherwise. -/
theorem claim_C2_calc_ratios (row : Video) :
    (max row.view_count 0 = 0 →
      (calc_ratios row).1 = 0 ∧ (calc_ratios row).2.1 = 0) ∧
    (max row.view_count 0 ≠ 0 →
      (calc_ratios row).1 =
        round6 (((max row.like_count 0 : Int) : ℚ) / ((max row.view_count 0 : Int) : ℚ)) ∧
      (calc_ratios row).2.1 =
        round6 (((max row.comment_count 0 : Int) : ℚ) / ((max row.view_count 0 : Int) : ℚ))) := by
  unfold calc_ratios
  dsimp only
  constructor
  · intro h
    simp [h]
  · intro h
    simp [h]

/-- Witness for C2: a zero-view record (after clamping) and a positive-view
record. -/
theorem claim_C2_calc_ratios_witness :
    (max (Video.mk "t" "" "u" (-3) 5 7).view_count 0 = 0 ∧
      ((calc_ratios (Video.mk "t" "" "u" (-3) 5 7)).1 = 0 ∧
       (calc_ratios (Video.mk "t" "" "u" (-3) 5 7)).2.1 = 0)) ∧
    (max (Video.mk "t" "" "u" 200 30 6).view_count 0 ≠ 0 ∧
      ((calc_ratios (Video.mk "t" "" "u" 200 30 6)).1 =
        round6 (((max (30 : Int) 0 : Int) : ℚ) / ((max (200 : Int) 0 : Int) : ℚ)) ∧
       (calc_ratios (Video.mk "t" "" "u" 200 30 6)).2.1 =
        round6 (((max (6 : Int) 0 : Int) : ℚ) / ((max (200 : Int) 0 : Int) : ℚ)))) :=
  ⟨⟨by decide, (claim_C2_calc_ratios (Video.mk "t" "" "u" (-3) 5 7)).1 (by decide)⟩,
   ⟨by decide, (claim_C2_calc_ratios (Video.mk "t" "" "u" 200 30 6)).2 (by decide)⟩⟩

/-- C3: the table built by `yt_to_dataframe` is exactly one row, in input
order, for every record with `view_count ≥ 100`, and every row of the
table has `view_count ≥ 100` (so no record with `view_count < 100`
contributes a row). -/
theorem claim_C3_view_filter (videos : List Video) :
    yt_to_dataframe videos =
      (videos.filter (fun v => 100 ≤ v.view_count)).map outRowOf ∧
    (∀ r ∈ yt_to_dataframe videos, 100 ≤ r.view_count) := by
  have hfil : videos.filter (fun v => ! decide (v.view_count < 100)) =
      videos.filter (fun v => 100 ≤ v.view_count) := by
    apply List.filter_congr
    intro v _
    by_cases hv : v.view_count < 100
    · have h2 : ¬ (100 : Int) ≤ v.view_count := by omega
      simp [hv, h2]
    · have h2 : (100 : Int) ≤ v.view_count := by omega
      simp [hv, h2]
  constructor
  · rw [yt_to_dataframe_eq_filterMap, hfil]
  · intro r hr
    rw [yt_to_dataframe_eq_filterMap, hfil] at hr
    obtain ⟨v, hv, rfl⟩ := List.mem_map.mp hr
    rw [outRowOf_view_count]
    exact of_decide_eq_true (List.mem_filter.mp hv).2

/-- Witness for C3: a 150-view record is kept, a 5-view record is dropped. -/
theorem claim_C3_view_filter_witness :
    yt_to_dataframe [Video.mk "x" "" "u" 150 1 1, Video.mk "y" "" "u" 5 1 1] =
      (([Video.mk "x" "" "u" 150 1 1, Video.mk "y" "" "u" 5 1 1].filter
        (fun v => 100 ≤ v.view_count)).map outRowOf) ∧
    (outRowOf (Video.mk "x" "" "u" 150 1 1) ∈
        yt_to_dataframe [Video.mk "x" "" "u" 150 1 1, Video.mk "y" "" "u" 5 1 1] ∧
      100 ≤ (outRowOf (Video.mk "x" "" "u" 150 1 1)).view_count) := by
  have hmem : outRowOf (Video.mk "x" "" "u" 150 1 1) ∈
      yt_to_dataframe [Video.mk "x" "" "u" 150 1 1, Video.mk "y" "" "u" 5 1 1] := by
    rw [(claim_C3_view_filter _).1]
    exact List.mem_map_of_mem outRowOf (by decide)
  exact ⟨(claim_C3_view_filter _).1, hmem, (claim_C3_view_filter _).2 _ hmem⟩

/-- C4, counterexample to the claim as stated: the stripped line `": x"`
contains a colon and its keyword list after trimming is the non-empty
`["x"]`, yet `parse_groups` emits no group for it (the code additionally
requires a non-empty trimmed name). -/
theorem claim_C4_counterexample :
    hasChar ':' (pyStrip ": x") = true ∧
    ((pySplitAll ',' (pySplitFirst ':' (pyStrip ": x")).2).map pyStrip).filter
      (fun k => k ≠ "") = ["x"] ∧
    parse_groups ": x" = [] := by
  refine ⟨by decide, by decide, by decide⟩

/-- C4, amended: `parse_groups` emits, in input-line order, one group per
line whose stripped form contains a colon, whose trimmed name (left of the
first colon) is non-empty, and whose trimmed comma-separated keyword list
is non-empty — and no group for any other line; parsing `"A: x, y\nB: z"`
yields exactly the two groups in input order with trimmed keyword lists. -/
theorem claim_C4_parse_groups_amended :
    (∀ text, parse_groups text = (pySplitlines text).filterMap claimLineGroup) ∧
    parse_groups "A: x, y\nB: z" =
      [⟨"A", ["x", "y"]⟩, ⟨"B", ["z"]⟩] := by
  constructor
  · intro text
    rw [parse_groups_eq_filterMap]
    exact List.filterMap_congr (fun l _ => lineGroup_eq_claimLineGroup l)
  · decide

/-- C10: a page contributes exactly its items with a present, non-empty
`videoId` (so at most as many identifiers as items), and on the concrete
three-item page with one absent and one empty identifier it contributes
strictly fewer identifiers than items. -/
theorem claim_C10_videoId_filter :
    (∀ p : Page, (pageIds p).length ≤ p.items.length ∧
      ∀ v ∈ pageIds p, v ≠ "" ∧ SearchItem.mk (some v) ∈ p.items) ∧
    (pageIds ⟨[⟨none⟩, ⟨some "abc"⟩, ⟨some ""⟩], none⟩ = ["abc"] ∧
      (pageIds ⟨[⟨none⟩, ⟨some "abc"⟩, ⟨some ""⟩], none⟩).length <
        ([⟨none⟩, ⟨some "abc"⟩, ⟨some ""⟩] : List SearchItem).length) := by
  refine ⟨fun p => ⟨?_, ?_⟩, by decide, by decide⟩
  · exact List.length_filterMap_le _ p.items
  · intro v hv
    unfold pageIds at hv
    rw [List.mem_filterMap] at hv
    obtain ⟨it, hit, heq⟩ := hv
    cases hvid : it.videoId with
    | none => rw [hvid] at heq; cases heq
    | some w =>
      rw [hvid] at heq
      dsimp only at heq
      by_cases hw : w = ""
      · rw [if_pos hw] at heq; cases heq
      · rw [if_neg hw] at heq
        cases heq
        refine ⟨hw, ?_⟩
        have h2 : it = SearchItem.mk (some v) := by
          cases it; cases hvid; rfl
        rwa [h2] at hit

/-- Witness for C10 at a concrete identifier of a concrete page. -/
theorem claim_C10_videoId_filter_witness :
    "abc" ∈ pageIds ⟨[⟨none⟩, ⟨some "abc"⟩, ⟨some ""⟩], none⟩ ∧
    ("abc" ≠ "" ∧ SearchItem.mk (some "abc") ∈
      (Page.mk [⟨none⟩, ⟨some "abc"⟩, ⟨some ""⟩] none).items) :=
  ⟨by decide,
   (claim_C10_videoId_filter.1 ⟨[⟨none⟩, ⟨some "abc"⟩, ⟨some ""⟩], none⟩).2 "abc" (by decide)⟩

/-- C5: with `n` collected identifiers, `fetch_all_youtube` with `n = 0`
returns the empty result with an empty detail-call trace, and with
`n ≥ 1` its detail-call trace is the 50-chunking of the identifier list —
`⌈n/50⌉ = (n + 49) / 50` calls, each over at most 50 identifiers, whose
concatenation in chunk order is exactly the identifier list — and its
records are built from the concatenation of all detail responses in chunk
order. -/
theorem claim_C5_chunked (pages : List Page)
    (detail : List String → List DetailItem) :
    (fetchAllIds pages = [] → fetch_all_youtube pages detail = (some [], [])) ∧
    (fetchAllIds pages ≠ [] →
      (fetch_all_youtube pages detail).2 = chunks50 (fetchAllIds pages) ∧
      (chunks50 (fetchAllIds pages)).length = ((fetchAllIds pages).length + 49) / 50 ∧
      (∀ c ∈ chunks50 (fetchAllIds pages), c.length ≤ 50) ∧
      (chunks50 (fetchAllIds pages)).flatten = fetchAllIds pages ∧
      (fetch_all_youtube pages detail).1 =
        (((chunks50 (fetchAllIds pages)).map detail).flatten).mapM mkVideo) := by
  constructor
  · intro h
    simp [fetch_all_youtube, h]
  · intro h
    have hne : (fetchAllIds pages).isEmpty = false := by
      cases hc : (fetchAllIds pages).isEmpty
      · rfl
      · exact absurd (List.isEmpty_iff.mp hc) h
    refine ⟨?_, chunks50_length _, fun c hc => chunks50_mem_le _ c hc,
      chunks50_flatten _, ?_⟩
    · simp [fetch_all_youtube, hne]
    · simp [fetch_all_youtube, hne, videos_list_chunked]

/-- Witness for C5: an empty harvest issues no detail call; a one-identifier
harvest issues exactly one chunked call. -/
theorem claim_C5_chunked_witness :
    (fetchAllIds ([⟨[], none⟩] : List Page) = [] ∧
      fetch_all_youtube [⟨[], none⟩] (fun _ => []) = (some [], [])) ∧
    (fetchAllIds ([⟨[⟨some "a"⟩], none⟩] : List Page) ≠ [] ∧
      ((fetch_all_youtube [⟨[⟨some "a"⟩], none⟩] (fun _ => [])).2 =
        chunks50 (fetchAllIds ([⟨[⟨some "a"⟩], none⟩] : List Page)) ∧
      (chunks50 (fetchAllIds ([⟨[⟨some "a"⟩], none⟩] : List Page))).length =
        ((fetchAllIds ([⟨[⟨some "a"⟩], none⟩] : List Page)).length + 49) / 50 ∧
      (∀ c ∈ chunks50 (fetchAllIds ([⟨[⟨some "a"⟩], none⟩] : List Page)), c.length ≤ 50) ∧
      (chunks50 (fetchAllIds ([⟨[⟨some "a"⟩], none⟩] : List Page))).flatten =
        fetchAllIds ([⟨[⟨some "a"⟩], none⟩] : List Page) ∧
      (fetch_all_youtube [⟨[⟨some "a"⟩], none⟩] (fun _ => [])).1 =
        (((chunks50 (fetchAllIds ([⟨[⟨some "a"⟩], none⟩] : List Page))).map
          (fun _ => ([] : List DetailItem))).flatten).mapM mkVideo)) :=
  ⟨⟨by decide, (claim_C5_chunked [⟨[], none⟩] (fun _ => [])).1 (by decide)⟩,
   ⟨by decide, (claim_C5_chunked [⟨[⟨some "a"⟩], none⟩] (fun _ => [])).2 (by decide)⟩⟩

/-- C6: `fetch_datalab` with an empty keyword-group list returns the empty
table and performs zero network calls, whatever the dates, time unit and
transport. -/
theorem claim_C6_empty_groups (s e : Int) (u : String)
    (api : DatalabRequest → List DlResult) :
    fetch_datalab s e u [] api = ([], 0) := by
  simp [fetch_datalab]

/-- C7: with credentials configured, a submission whose start date is
strictly after its end date is rejected with the date-validation outcome,
and the trace shows `parse_groups` was never invoked and `fetch_datalab`
performed no call. -/
theorem claim_C7_date_validation (s e : Int) (u raw : String)
    (api : DatalabRequest → List DlResult) (h : e < s) :
    render_naver_datalab true s e u raw api = (.dateError, ⟨false, 0⟩) := by
  simp [render_naver_datalab, h]

/-- Witness for C7 at a concrete inverted date pair. -/
theorem claim_C7_date_validation_witness :
    (3 : Int) < 5 ∧
    render_naver_datalab true 5 3 "date" "A: x" (fun _ => []) =
      (.dateError, ⟨false, 0⟩) :=
  ⟨by decide, claim_C7_date_validation 5 3 "date" "A: x" (fun _ => []) (by decide)⟩

/-- C8: each of the three counts of a record is the integer value of the
corresponding statistics field when present (for `viewCount`, a present
non-empty value; `int` fails on an empty string anyway) and `0` when the
field is absent; and every record `fetch_all_youtube` builds carries
exactly the counts these extractors produce. -/
theorem claim_C8_statistics_counts :
    (∀ stt : Statistics,
      (stt.viewCount = none → viewCountOf stt = some 0) ∧
      (∀ s n, stt.viewCount = some s → pyInt s = some n → viewCountOf stt = some n) ∧
      (stt.likeCount = none → likeCountOf stt = some 0) ∧
      (∀ s n, stt.likeCount = some s → pyInt s = some n → likeCountOf stt = some n) ∧
      (stt.commentCount = none → commentCountOf stt = some 0) ∧
      (∀ s n, stt.commentCount = some s → pyInt s = some n →
        commentCountOf stt = some n)) ∧
    (∀ (it : DetailItem) (v : Video), mkVideo it = some v →
      viewCountOf it.statistics = some v.view_count ∧
      likeCountOf it.statistics = some v.like_count ∧
      commentCountOf it.statistics = some v.comment_count) := by
  constructor
  · intro stt
    refine ⟨?_, ?_, ?_, ?_, ?_, ?_⟩
    · intro hn; unfold viewCountOf; rw [hn]
    · intro s n hs hn
      unfold viewCountOf
      rw [hs]
      dsimp only
      by_cases hse : s = ""
      · subst hse
        have hempty : pyInt "" = none := by decide
        rw [hempty] at hn
        cases hn
      · rw [if_neg hse]
        exact hn
    · intro hn; unfold likeCountOf; rw [hn]
    · intro s n hs hn; unfold likeCountOf; rw [hs]; exact hn
    · intro hn; unfold commentCountOf; rw [hn]
    · intro s n hs hn; unfold commentCountOf; rw [hs]; exact hn
  · intro it v hv
    unfold mkVideo at hv
    cases hV : viewCountOf it.statistics with
    | none => rw [hV] at hv; cases hv
    | some a =>
      cases hL : likeCountOf it.statistics with
      | none => rw [hV, hL] at hv; cases hv
      | some b =>
        cases hC : commentCountOf it.statistics with
        | none => rw [hV, hL, hC] at hv; cases hv
        | some c =>
          rw [hV, hL, hC] at hv
          dsimp only at hv
          cases hv
          simp [hV, hL, hC]

/-- Witness for C8: a statistics object with a present view count, an
absent like count and a present zero comment count, and the record built
from a detail item carrying it. -/
theorem claim_C8_statistics_counts_witness :
    (viewCountOf ⟨some "123", none, some "0"⟩ = some 123 ∧
     likeCountOf ⟨some "123", none, some "0"⟩ = some 0 ∧
     commentCountOf ⟨some "123", none, some "0"⟩ = some 0) ∧
    (viewCountOf (DetailItem.mk (some "id1")
        ⟨some "T", some "2024-01-01T00:00:00Z"⟩ ⟨some "123", none, some "0"⟩).statistics =
      some (Video.mk "T" "2024-01-01T00:00:00Z"
        "https://www.youtube.com/watch?v=id1" 123 0 0).view_count ∧
     likeCountOf (DetailItem.mk (some "id1")
        ⟨some "T", some "2024-01-01T00:00:00Z"⟩ ⟨some "123", none, some "0"⟩).statistics =
      some (Video.mk "T" "2024-01-01T00:00:00Z"
        "https://www.youtube.com/watch?v=id1" 123 0 0).like_count ∧
     commentCountOf (DetailItem.mk (some "id1")
        ⟨some "T", some "2024-01-01T00:00:00Z"⟩ ⟨some "123", none, some "0"⟩).statistics =
      some (Video.mk "T" "2024-01-01T00:00:00Z"
        "https://www.youtube.com/watch?v=id1" 123 0 0).comment_count) :=
  ⟨⟨(claim_C8_statistics_counts.1 ⟨some "123", none, some "0"⟩).2.1 "123" 123 rfl (by decide),
    (claim_C8_statistics_counts.1 ⟨some "123", none, some "0"⟩).2.2.1 rfl,
    (claim_C8_statistics_counts.1 ⟨some "123", none, some "0"⟩).2.2.2.2.2 "0" 0 rfl
      (by decide)⟩,
   claim_C8_statistics_counts.2 (DetailItem.mk (some "id1")
      ⟨some "T", some "2024-01-01T00:00:00Z"⟩ ⟨some "123", none, some "0"⟩)
    (Video.mk "T" "2024-01-01T00:00:00Z" "https://www.youtube.com/watch?v=id1" 123 0 0)
    (by decide)⟩

/-- C9 (time-to-live memo, modelled from the spec since the decorator is
framework code): a first call on a cold cache runs the fetch; a second
call with the same key strictly within the 600-second window returns the
identical cached value, leaves the cache unchanged and runs no fetch;
a call at or past the expiry runs a fresh fetch. -/
theorem claim_C9_ttl_cache {K V : Type} [DecidableEq K] (f : K → V) (k : K)
    (t1 t2 : Nat) :
    (cachedCall 600 f [] t1 k).1 = f k ∧
    (cachedCall 600 f [] t1 k).2.2 = true ∧
    (t2 < t1 + 600 →
      cachedCall 600 f (cachedCall 600 f [] t1 k).2.1 t2 k =
        (f k, (cachedCall 600 f [] t1 k).2.1, false)) ∧
    (t1 + 600 ≤ t2 →
      (cachedCall 600 f (cachedCall 600 f [] t1 k).2.1 t2 k).2.2 = true ∧
      (cachedCall 600 f (cachedCall 600 f [] t1 k).2.1 t2 k).1 = f k) := by
  have h1 : cachedCall 600 f [] t1 k = (f k, [(k, t1, f k)], true) := rfl
  refine ⟨by rw [h1], by rw [h1], ?_, ?_⟩
  · intro h
    rw [h1]
    unfold cachedCall cacheLookup
    simp [h]
  · intro h
    rw [h1]
    unfold cachedCall cacheLookup
    have h2 : ¬ t2 < t1 + 600 := by omega
    simp [h2]

/-- Witness for C9 with the DataLab fetcher keyed by keyword groups:
a repeat at second 100 is served from the cache, a repeat at second 700
refetches. -/
theorem claim_C9_ttl_cache_witness :
    ((100 : Nat) < 0 + 600 ∧
      cachedCall 600 dlFetchOnGroups
          (cachedCall 600 dlFetchOnGroups [] 0 [⟨"A", ["x"]⟩]).2.1 100 [⟨"A", ["x"]⟩] =
        (dlFetchOnGroups [⟨"A", ["x"]⟩],
         (cachedCall 600 dlFetchOnGroups [] 0 [⟨"A", ["x"]⟩]).2.1, false)) ∧
    ((0 : Nat) + 600 ≤ 700 ∧
      ((cachedCall 600 dlFetchOnGroups
          (cachedCall 600 dlFetchOnGroups [] 0 [⟨"A", ["x"]⟩]).2.1 700 [⟨"A", ["x"]⟩]).2.2 =
        true ∧
       (cachedCall 600 dlFetchOnGroups
          (cachedCall 600 dlFetchOnGroups [] 0 [⟨"A", ["x"]⟩]).2.1 700 [⟨"A", ["x"]⟩]).1 =
        dlFetchOnGroups [⟨"A", ["x"]⟩])) :=
  ⟨⟨by decide, (claim_C9_ttl_cache dlFetchOnGroups [⟨"A", ["x"]⟩] 0 100).2.2.1 (by decide)⟩,
   ⟨by decide, (claim_C9_ttl_cache dlFetchOnGroups [⟨"A", ["x"]⟩] 0 700).2.2.2 (by decide)⟩⟩

end App
